import Mathlib

/-!
Shallow embedding of the restaurant recommendation engine
(`restaurant_recommender.py`, with the loading loop of
`simple_recommender.py` for test locations), and proofs of the
spec's testable properties about it.

Numeric values (Python floats) are modelled as rationals `ℚ`.
The haversine geo-distance function (floating-point trigonometry,
spec §4.1: a pure function of the two coordinate pairs) is
abstracted as a parameter `geo : ℚ → ℚ → ℚ → ℚ → ℚ`; every claim
below is about how the engine uses the distance it returns, and is
stated for arbitrary `geo`.
-/

namespace RestaurantRec

/-- A vendor record of the catalog, as built by `load_data`
(`restaurant_recommender.py` lines 35-44).  `is_open` is stored in
Python as an int and tested for truthiness; we model it as `Bool`. -/
structure Vendor where
  lat : ℚ
  lon : ℚ
  category : String
  rating : ℚ
  delivery_charge : ℚ
  serving_distance : ℚ
  is_open : Bool
  discount : ℚ
  deriving Repr, DecidableEq

/-- The state of a `RestaurantRecommender` after `load_data`:
the vendor catalog (`self.vendors`), the per-customer set of ordered
vendors (`self.customer_orders`) and the per-customer category
counter (`self.customer_preferences`).  Python dicts are modelled as
association lists with first-match lookup; an entry written later is
consed to the front, so lookup agrees with dict overwrite semantics. -/
structure Recommender where
  vendors : List (ℤ × Vendor)
  customer_orders : List (String × List ℤ)
  customer_preferences : List (String × List (String × ℕ))
  deriving Repr, DecidableEq

/-- `vendor_id in self.customer_orders.get(customer_id, set())`
(line 110). -/
def has_ordered (st : Recommender) (customer_id : String) (vendor_id : ℤ) : Bool :=
  match st.customer_orders.lookup customer_id with
  | none => false
  | some s => s.contains vendor_id

/-- Lines 113-117: `if customer_id in self.customer_preferences:
score += self.customer_preferences[customer_id].get(category, 0) * 2`;
when the customer is absent nothing is added, which we model as a
bonus of `0`. -/
def cat_bonus (st : Recommender) (customer_id : String) (category : String) : ℚ :=
  match st.customer_preferences.lookup customer_id with
  | none => 0
  | some counter => ((counter.lookup category).getD 0 : ℕ) * 2

/-- The banded distance score of lines 85-94. -/
def dist_band (distance : ℚ) : ℚ :=
  if distance ≤ 1 then 20
  else if distance ≤ 3 then 15
  else if distance ≤ 5 then 10
  else if distance ≤ 8 then 5
  else 1

/-- The additive score accumulated in lines 82-103, before the
open/closed multiplier: distance band, plus `rating * 3`, minus
`delivery_charge * 2`, plus `discount * 0.5`. -/
def pre_multiplier_score (vendor : Vendor) (distance : ℚ) : ℚ :=
  dist_band distance + vendor.rating * 3 - vendor.delivery_charge * 2
    + vendor.discount * (1/2)

/-- Lines 106-107: `if not vendor['is_open']: score *= 0.1`. -/
def open_adjusted (vendor : Vendor) (distance : ℚ) : ℚ :=
  if vendor.is_open then pre_multiplier_score vendor distance
  else pre_multiplier_score vendor distance * (1/10)

/-- The body of `calculate_vendor_score` (lines 69-119) once the
vendor record has been found in the catalog; `geo` is the abstracted
haversine distance function applied at line 72. -/
def score_vendor (st : Recommender) (geo : ℚ → ℚ → ℚ → ℚ → ℚ)
    (customer_id : String) (customer_lat customer_lon : ℚ)
    (vendor_id : ℤ) (vendor : Vendor) : ℚ :=
  let distance := geo customer_lat customer_lon vendor.lat vendor.lon
  if vendor.serving_distance < distance then 0
  else
    let score := open_adjusted vendor distance
    let score := if has_ordered st customer_id vendor_id then score + 50 else score
    let score := score + cat_bonus st customer_id vendor.category
    max 0 score

/-- `calculate_vendor_score` (lines 64-119): returns 0 when the
vendor id is not in the catalog (lines 66-67), otherwise scores the
looked-up vendor record. -/
def calculate_vendor_score (st : Recommender) (geo : ℚ → ℚ → ℚ → ℚ → ℚ)
    (customer_id : String) (customer_lat customer_lon : ℚ)
    (vendor_id : ℤ) : ℚ :=
  match st.vendors.lookup vendor_id with
  | none => 0
  | some vendor => score_vendor st geo customer_id customer_lat customer_lon vendor_id vendor

/-- A cleansed test-location row (`Test/test_locations.csv`), after
the parsing of lines 139-142. -/
structure TestRow where
  customer_id : String
  location_number : ℤ
  latitude : ℚ
  longitude : ℚ
  deriving Repr, DecidableEq

/-- A recommendation as appended at lines 166-171. -/
structure Rec where
  customer_id : String
  location_number : ℤ
  vendor_id : ℤ
  score : ℚ
  deriving Repr, DecidableEq

/-- The per-group membership test of lines 162-164:
`r['customer_id'] == customer_id and r['location_number'] == location_num`. -/
def key_matches (c : String) (l : ℤ) (r : Rec) : Bool :=
  r.customer_id == c && r.location_number == l

/-- `len([r for r in recommendations if r['customer_id'] == c and
r['location_number'] == l])` (lines 162-164). -/
def countKey (c : String) (l : ℤ) (recs : List Rec) : ℕ :=
  (recs.filter (key_matches c l)).length

/-- Lines 145-153: score every vendor of the catalog in iteration
order and keep the `(vendor_id, score)` pairs with `score > 0`. -/
def scoreRow (st : Recommender) (geo : ℚ → ℚ → ℚ → ℚ → ℚ)
    (customer_id : String) (customer_lat customer_lon : ℚ) : List (ℤ × ℚ) :=
  (st.vendors.map (fun p =>
    (p.1, calculate_vendor_score st geo customer_id customer_lat customer_lon p.1))).filter
    (fun p => decide (0 < p.2))

/-- The comparison used at line 156, `sort(key=lambda x: x[1],
reverse=True)`: a stable sort placing higher scores first. -/
def score_ge (a b : ℤ × ℚ) : Prop := b.2 ≤ a.2

instance : DecidableRel score_ge := fun a b => inferInstanceAs (Decidable (b.2 ≤ a.2))

instance : IsTotal (ℤ × ℚ) score_ge := ⟨fun a b => le_total b.2 a.2⟩

instance : IsTrans (ℤ × ℚ) score_ge := ⟨fun _ _ _ h h' => le_trans h' h⟩

/-- Line 156: sort the candidates by score, descending, stably
(Python `list.sort` is stable; ties keep catalog iteration order). -/
def sort_desc (l : List (ℤ × ℚ)) : List (ℤ × ℚ) :=
  l.insertionSort score_ge

/-- Line 159: `min_score = max(10, vendor_scores[0][1] * 0.1) if
vendor_scores else 10`, on the already-sorted candidate list. -/
def min_score_of (sorted : List (ℤ × ℚ)) : ℚ :=
  match sorted with
  | [] => 10
  | p :: _ => max 10 (p.2 * (1/10))

/-- The emission loop of lines 161-171: walk the sorted candidates
and append a recommendation whenever the score clears `min_score`
and the accumulated output still holds fewer than 10 rows for this
(customer, location) key.  The count rescans the whole accumulated
`recommendations` list, exactly as the source does. -/
def emit_loop (c : String) (l : ℤ) (m : ℚ) :
    List (ℤ × ℚ) → List Rec → List Rec
  | [], recommendations => recommendations
  | (vendor_id, score) :: rest, recommendations =>
    if m ≤ score ∧ countKey c l recommendations < 10 then
      emit_loop c l m rest (recommendations ++ [⟨c, l, vendor_id, score⟩])
    else
      emit_loop c l m rest recommendations

/-- The body of the per-row loop of lines 138-171: score the
catalog, sort, compute the cutoff and emit into the running
`recommendations` accumulator. -/
def process_row (st : Recommender) (geo : ℚ → ℚ → ℚ → ℚ → ℚ)
    (recommendations : List Rec) (row : TestRow) : List Rec :=
  let sorted := sort_desc (scoreRow st geo row.customer_id row.latitude row.longitude)
  emit_loop row.customer_id row.location_number (min_score_of sorted) sorted recommendations

/-- `generate_recommendations` (lines 121-173) over the cleansed
test-location rows: fold the per-row loop over an initially empty
accumulator. -/
def generate_recommendations (st : Recommender) (geo : ℚ → ℚ → ℚ → ℚ → ℚ)
    (rows : List TestRow) : List Rec :=
  rows.foldl (process_row st geo) []

/-! ### Loading (claims C7 and C8) -/

/-- `self.customer_orders[customer_id].add(vendor_id)` (line 55):
set insertion into the per-customer ordered-vendor set, creating the
entry on first use (`defaultdict(set)`). -/
def add_order (m : List (String × List ℤ)) (c : String) (v : ℤ) :
    List (String × List ℤ) :=
  match m.lookup c with
  | none => (c, [v]) :: m
  | some s => (c, if s.contains v then s else v :: s) :: m

/-- `self.customer_preferences[customer_id][category] += 1`
(line 60): increment of the per-customer category counter, creating
entries on first use (`defaultdict(Counter)`). -/
def bump_category (m : List (String × List (String × ℕ))) (c : String)
    (category : String) : List (String × List (String × ℕ)) :=
  match m.lookup c with
  | none => (c, [(category, 1)]) :: m
  | some counter => (c, (category, (counter.lookup category).getD 0 + 1) :: counter) :: m

/-- One iteration of the order-loading loop (lines 51-60): record
the `(customer_id, vendor_id)` membership, and bump the category
counter only when the vendor id is found in the catalog (line 58). -/
def record_order (vendors : List (ℤ × Vendor))
    (st : List (String × List ℤ) × List (String × List (String × ℕ)))
    (o : String × ℤ) :
    List (String × List ℤ) × List (String × List (String × ℕ)) :=
  let orders := add_order st.1 o.1 o.2
  match vendors.lookup o.2 with
  | none => (orders, st.2)
  | some vendor => (orders, bump_category st.2 o.1 vendor.category)

/-- The order-loading loop of `load_data` (lines 49-60) over the
parsed `(customer_id, vendor_id)` rows of `Train/orders.csv`. -/
def load_orders (vendors : List (ℤ × Vendor)) (rows : List (String × ℤ)) :
    List (String × List ℤ) × List (String × List (String × ℕ)) :=
  rows.foldl (record_order vendors) ([], [])

/-- A raw CSV field holding a number: `missing` when the column is
absent or the value is empty (Python `row.get(..., 0) or 0` treats
both as the default, while `row[...]` raises `KeyError` on an absent
column and `float('')` raises `ValueError`); `bad` when a non-empty
value does not parse as a number (`float(...)`/`int(...)` raise
`ValueError`); `num q` when it parses. -/
inductive RawField where
  | missing
  | bad
  | num (q : ℚ)
  deriving Repr, DecidableEq

/-- Parsing a required field, `int(row['id'])` / `float(row['latitude'])`
(lines 34, 36-37): any missing or unparsable value raises, which we
model as `Except.error`. -/
def parse_required : RawField → Except Unit ℚ
  | .missing => .error ()
  | .bad => .error ()
  | .num q => .ok q

/-- Parsing an optional field with a default,
`float(row.get('vendor_rating', 0) or 0)` (lines 39-43): a missing or
empty value falls back to the default, but a non-empty unparsable
value still raises. -/
def parse_optional (default : ℚ) : RawField → Except Unit ℚ
  | .missing => .ok default
  | .bad => .error ()
  | .num q => .ok q

/-- A raw row of `Train/vendors.csv` as seen by `load_data`
(lines 31-44). -/
structure RawVendorRow where
  id : RawField
  latitude : RawField
  longitude : RawField
  vendor_category_en : String
  vendor_rating : RawField
  delivery_charge : RawField
  serving_distance : RawField
  is_open : RawField
  discount_percentage : RawField
  deriving Repr, DecidableEq

/-- Parsing a required integer field, `int(row['id'])` (line 34):
missing, unparsable or non-integral values raise. -/
def parse_required_int (f : RawField) : Except Unit ℤ :=
  match f with
  | .missing => .error ()
  | .bad => .error ()
  | .num q => if q.den = 1 then .ok q.num else .error ()

/-- Parsing one vendor row (lines 34-44).  There is no exception
handling around the loop body, so the first failing field aborts. -/
def parse_vendor_row (row : RawVendorRow) : Except Unit (ℤ × Vendor) := do
  let id ← parse_required_int row.id
  let lat ← parse_required row.latitude
  let lon ← parse_required row.longitude
  let rating ← parse_optional 0 row.vendor_rating
  let charge ← parse_optional 0 row.delivery_charge
  let serving ← parse_optional 10 row.serving_distance
  let open? ← parse_optional 1 row.is_open
  let discount ← parse_optional 0 row.discount_percentage
  pure (id, ⟨lat, lon, row.vendor_category_en, rating, charge, serving,
    open? != 0, discount⟩)

/-- The vendor-loading loop of `load_data` (lines 31-44): each row is
parsed and assigned into the dict; since nothing catches the parse
exceptions, a single malformed row aborts the whole load.  A later
row with the same id overwrites (dict assignment), modelled by
consing to the front of the association list. -/
def load_vendors (rows : List RawVendorRow) : Except Unit (List (ℤ × Vendor)) :=
  rows.foldlM (fun acc row => do
    let p ← parse_vendor_row row
    pure (p :: acc)) []

/-- A raw row of `Test/test_locations.csv` as seen by the loading
loop of `simple_recommender.py` (lines 45-64). -/
structure RawLocationRow where
  customer_id : String
  location_number : RawField
  latitude : RawField
  longitude : RawField
  deriving Repr, DecidableEq

/-- One row of the test-location loading loop of
`simple_recommender.py` (lines 47-64): rows whose customer is not in
the test-customer table are skipped, blank coordinates are skipped
(`if not row['latitude'] or not row['longitude']: continue`), and
unparsable values are skipped by the `try/except` — the loop never
aborts. -/
def parse_location_row (test_customers : List String) (row : RawLocationRow) :
    Option TestRow :=
  if row.customer_id ∈ test_customers then
    match row.latitude, row.longitude with
    | .missing, _ => none
    | _, .missing => none
    | .bad, _ => none
    | _, .bad => none
    | .num lat, .num lon =>
      match row.location_number with
      | .num loc => if loc.den = 1 then some ⟨row.customer_id, loc.num, lat, lon⟩ else none
      | _ => none
  else none

/-- The test-location loading loop of `simple_recommender.py`
(lines 45-64): keep the rows that parse, silently drop the rest. -/
def load_test_data (test_customers : List String) (rows : List RawLocationRow) :
    List TestRow :=
  rows.filterMap (parse_location_row test_customers)

/-! ### Spec-side definitions (for the refinement claims C1 and C2) -/

/-- From the spec: the banded distance score, `dist ≤ 1 → +20;
≤3 → +15; ≤5 → +10; ≤8 → +5; else → +1`. -/
def spec_dist_band (dist : ℚ) : ℚ :=
  if dist ≤ 1 then 20
  else if dist ≤ 3 then 15
  else if dist ≤ 5 then 10
  else if dist ≤ 8 then 5
  else 1

/-- From the spec (claim C2): `max(0, (band + 3*rating -
2*delivery_charge + 0.5*discount) * (0.1 if closed else 1) +
(50 if previously ordered else 0) + 2*category_count)`. -/
def spec_score (vendor : Vendor) (dist : ℚ) (ordered : Bool) (count : ℕ) : ℚ :=
  max 0 ((spec_dist_band dist + 3 * vendor.rating - 2 * vendor.delivery_charge
      + (1/2) * vendor.discount) * (if vendor.is_open then 1 else 1/10)
    + (if ordered then 50 else 0) + 2 * count)

/-- The spec's `category_count(customer, category)`: the count
recorded in the preference index, `0` for an unseen customer or
category. -/
def category_count (st : Recommender) (customer_id : String) (category : String) : ℕ :=
  (((st.customer_preferences.lookup customer_id).getD []).lookup category).getD 0

/-- From the spec: `top_score` is the highest score in the group
(the group's candidates all have positive score, so a fold of `max`
with neutral base `0` computes it). -/
def top_score (candidates : List (ℤ × ℚ)) : ℚ :=
  (candidates.map Prod.snd).foldr max 0

/-- The record appended for an emitted candidate (lines 166-171). -/
def emit_rec (c : String) (l : ℤ) (p : ℤ × ℚ) : Rec :=
  ⟨c, l, p.1, p.2⟩

/-- From the spec (claim C1): the emitted group is exactly the
candidates with `score ≥ max(10, top_score * 0.1)`, truncated to the
10 highest-scoring, in descending score order with ties in catalog
iteration order (the stable descending sort). -/
def spec_group_recs (c : String) (l : ℤ) (candidates : List (ℤ × ℚ)) : List Rec :=
  let m := max 10 (top_score candidates * (1/10))
  (((sort_desc candidates).filter (fun p => decide (m ≤ p.2))).take 10).map (emit_rec c l)

/-! ### Concrete states used by examples, witnesses and counterexamples -/

/-- The vendor of the spec's §8 end-to-end example: id 1 at (0,0),
rating 5, no delivery charge, serving distance 100, open, category
"A", no discount. -/
def exVendor : Vendor := ⟨0, 0, "A", 5, 0, 100, true, 0⟩

/-- The §8 example state: catalog `{V1}`, empty order history. -/
def exSt : Recommender := ⟨[(1, exVendor)], [], []⟩

/-- A geo-distance returning 0 (customer at the vendor's location). -/
def exGeo : ℚ → ℚ → ℚ → ℚ → ℚ := fun _ _ _ _ => 0

/-- The §8 example customer-location row (C1, location 1). -/
def exRow : TestRow := ⟨"C1", 1, 0, 0⟩

/-- A vendor whose score is positive but below 10: rating 0,
delivery charge 6, at distance 0 it scores `20 - 12 = 8`. -/
def lowVendor : Vendor := ⟨0, 0, "A", 0, 6, 100, true, 0⟩

/-- State whose only vendor scores 8 (positive, below the floor). -/
def lowSt : Recommender := ⟨[(1, lowVendor)], [], []⟩

/-- A vendor whose delivery charge swamps the distance band:
at distance 0 the pre-bonus score is `20 - 80 = -60`. -/
def dearVendor : Vendor := ⟨0, 0, "A", 0, 40, 100, true, 0⟩

/-- Two identical expensive vendors; the customer has ordered from
vendor 1 only (so the category counter holds one "A" order). -/
def dearSt : Recommender :=
  ⟨[(1, dearVendor), (2, dearVendor)], [("C", [1])], [("C", [("A", 1)])]⟩

/-- The §8 vendor under two ids; the customer "C" has ordered from
id 1 only (one order of category "A"). -/
def twoSt : Recommender :=
  ⟨[(1, exVendor), (2, exVendor)], [("C", [1])], [("C", [("A", 1)])]⟩

/-- A well-formed vendor row. -/
def goodVendorRow : RawVendorRow :=
  ⟨.num 1, .num 0, .num 0, "A", .num 5, .num 0, .num 100, .num 1, .num 0⟩

/-- A vendor row whose latitude does not parse. -/
def badVendorRow : RawVendorRow :=
  ⟨.num 1, .bad, .num 0, "A", .missing, .missing, .missing, .missing, .missing⟩

/-- A geo-distance returning 101 (farther than exVendor's serving
distance of 100). -/
def farGeo : ℚ → ℚ → ℚ → ℚ → ℚ := fun _ _ _ _ => 101

/-! ### Lemmas about the emission loop -/

theorem key_matches_emit_rec (c : String) (l : ℤ) (p : ℤ × ℚ) :
    key_matches c l (emit_rec c l p) = true := by
  simp [key_matches, emit_rec]

theorem countKey_append (c : String) (l : ℤ) (r1 r2 : List Rec) :
    countKey c l (r1 ++ r2) = countKey c l r1 + countKey c l r2 := by
  simp [countKey, List.filter_append]

theorem countKey_emit_one (c : String) (l : ℤ) (acc : List Rec) (v : ℤ) (s : ℚ) :
    countKey c l (acc ++ [⟨c, l, v, s⟩]) = countKey c l acc + 1 := by
  rw [countKey_append]
  simp [countKey, key_matches]

/-- Characterization of the emission loop of lines 161-171: starting
from accumulator `acc`, it appends the first `10 - countKey c l acc`
candidates clearing the cutoff, in list order. -/
theorem emit_loop_eq (c : String) (l : ℤ) (m : ℚ) :
    ∀ (lst : List (ℤ × ℚ)) (acc : List Rec),
      emit_loop c l m lst acc =
        acc ++ ((lst.filter (fun p => decide (m ≤ p.2))).take
          (10 - countKey c l acc)).map (emit_rec c l)
  | [], acc => by simp [emit_loop]
  | (v, s) :: rest, acc => by
    by_cases hm : m ≤ s
    · by_cases hc : countKey c l acc < 10
      · rw [emit_loop, if_pos ⟨hm, hc⟩, emit_loop_eq c l m rest (acc ++ [Rec.mk c l v s]),
          countKey_emit_one]
        have h10 : 10 - countKey c l acc = (10 - (countKey c l acc + 1)) + 1 := by omega
        rw [h10]
        simp only [List.filter_cons, hm, decide_True, if_true, List.take_succ_cons,
          List.map_cons, List.append_assoc]
        rfl
      · rw [emit_loop, if_neg (by tauto), emit_loop_eq c l m rest acc]
        have h10 : 10 - countKey c l acc = 0 := by omega
        simp [h10]
    · rw [emit_loop, if_neg (by tauto), emit_loop_eq c l m rest acc]
      simp [List.filter_cons, hm]

theorem countKey_map_emit (c c' : String) (l l' : ℤ) (lst : List (ℤ × ℚ)) :
    countKey c' l' (lst.map (emit_rec c l)) =
      if c = c' ∧ l = l' then lst.length else 0 := by
  by_cases h : c = c' ∧ l = l'
  · obtain ⟨rfl, rfl⟩ := h
    rw [if_pos ⟨rfl, rfl⟩]
    unfold countKey
    rw [List.filter_eq_self.mpr, List.length_map]
    intro r hr
    obtain ⟨p, _, rfl⟩ := List.mem_map.mp hr
    exact key_matches_emit_rec c l p
  · rw [if_neg h]
    unfold countKey
    rw [List.filter_eq_nil_iff.mpr, List.length_nil]
    intro r hr
    obtain ⟨p, _, rfl⟩ := List.mem_map.mp hr
    simp only [key_matches, emit_rec, Bool.and_eq_true, beq_iff_eq]
    tauto

theorem countKey_emit_loop (c c' : String) (l l' : ℤ) (m : ℚ)
    (lst : List (ℤ × ℚ)) (acc : List Rec) :
    countKey c' l' (emit_loop c l m lst acc) ≤ max (countKey c' l' acc) 10 := by
  rw [emit_loop_eq, countKey_append, countKey_map_emit]
  by_cases h : c = c' ∧ l = l'
  · obtain ⟨rfl, rfl⟩ := h
    rw [if_pos ⟨rfl, rfl⟩]
    have := List.length_take_le (10 - countKey c l acc)
      ((lst.filter (fun p => decide (m ≤ p.2))))
    omega
  · rw [if_neg h]
    omega

theorem countKey_process_row (st : Recommender) (geo : ℚ → ℚ → ℚ → ℚ → ℚ)
    (acc : List Rec) (row : TestRow) (c : String) (l : ℤ) :
    countKey c l (process_row st geo acc row) ≤ max (countKey c l acc) 10 :=
  countKey_emit_loop _ _ _ _ _ _ _

theorem countKey_foldl (st : Recommender) (geo : ℚ → ℚ → ℚ → ℚ → ℚ)
    (c : String) (l : ℤ) :
    ∀ (rows : List TestRow) (acc : List Rec), countKey c l acc ≤ 10 →
      countKey c l (rows.foldl (process_row st geo) acc) ≤ 10
  | [], acc, h => h
  | row :: rest, acc, h => by
    rw [List.foldl_cons]
    exact countKey_foldl st geo c l rest (process_row st geo acc row)
      (le_trans (countKey_process_row st geo acc row c l) (max_le h le_rfl))

/-! ### Lemmas about the sort and the group maximum -/

theorem sort_desc_perm (l : List (ℤ × ℚ)) : List.Perm (sort_desc l) l :=
  List.perm_insertionSort score_ge l

theorem sort_desc_sorted (l : List (ℤ × ℚ)) : List.Sorted score_ge (sort_desc l) :=
  List.sorted_insertionSort score_ge l

theorem sort_desc_head_max (l : List (ℤ × ℚ)) (p : ℤ × ℚ) (rest : List (ℤ × ℚ))
    (h : sort_desc l = p :: rest) : ∀ q ∈ l, q.2 ≤ p.2 := by
  intro q hq
  have hq' : q ∈ p :: rest := h ▸ ((sort_desc_perm l).symm.subset hq)
  rcases List.mem_cons.mp hq' with rfl | h'
  · exact le_refl _
  · have hs := sort_desc_sorted l
    rw [h] at hs
    exact (List.sorted_cons.mp hs).1 q h'

theorem le_foldr_max (l : List ℚ) (b : ℚ) : ∀ x ∈ l, x ≤ l.foldr max b := by
  induction l with
  | nil => intro x hx; exact absurd hx (List.not_mem_nil x)
  | cons a t ih =>
    intro x hx
    rcases List.mem_cons.mp hx with rfl | hx'
    · exact le_max_left _ _
    · exact le_trans (ih x hx') (le_max_right _ _)

theorem foldr_max_le (l : List ℚ) (b c : ℚ) (hb : b ≤ c) (h : ∀ x ∈ l, x ≤ c) :
    l.foldr max b ≤ c := by
  induction l with
  | nil => exact hb
  | cons a t ih =>
    exact max_le (h a (List.mem_cons_self a t))
      (ih (fun x hx => h x (List.mem_cons_of_mem a hx)))

theorem top_score_eq_head (l : List (ℤ × ℚ)) (p : ℤ × ℚ) (rest : List (ℤ × ℚ))
    (h : sort_desc l = p :: rest) (hpos : ∀ q ∈ l, 0 < q.2) :
    top_score l = p.2 := by
  have hpl : p ∈ l := (sort_desc_perm l).subset (h ▸ List.mem_cons_self p rest)
  apply le_antisymm
  · apply foldr_max_le
    · exact le_of_lt (hpos p hpl)
    · intro x hx
      obtain ⟨q, hql, rfl⟩ := List.mem_map.mp hx
      exact sort_desc_head_max l p rest h q hql
  · exact le_foldr_max _ 0 p.2 (List.mem_map.mpr ⟨p, hpl, rfl⟩)

theorem scoreRow_pos (st : Recommender) (geo : ℚ → ℚ → ℚ → ℚ → ℚ)
    (cid : String) (clat clon : ℚ) :
    ∀ p ∈ scoreRow st geo cid clat clon, 0 < p.2 := by
  intro p hp
  unfold scoreRow at hp
  simpa using List.of_mem_filter hp

/-! ### Claim theorems -/

/-- Claim C1: for a customer-location group with at least one
candidate of positive score (and no output rows accumulated yet for
its key), the emitted recommendations for the group are exactly the
candidates whose score is at least `max(10, top_score * 0.1)`,
truncated to the 10 highest-scoring, in descending score order with
ties in catalog iteration order. -/
theorem selection_matches_spec (st : Recommender) (geo : ℚ → ℚ → ℚ → ℚ → ℚ)
    (acc : List Rec) (row : TestRow)
    (hacc : countKey row.customer_id row.location_number acc = 0)
    (hpos : scoreRow st geo row.customer_id row.latitude row.longitude ≠ []) :
    (process_row st geo acc row).filter (key_matches row.customer_id row.location_number) =
      spec_group_recs row.customer_id row.location_number
        (scoreRow st geo row.customer_id row.latitude row.longitude) := by
  obtain ⟨p, rest, hsort⟩ : ∃ p rest,
      sort_desc (scoreRow st geo row.customer_id row.latitude row.longitude) = p :: rest := by
    cases hs : sort_desc (scoreRow st geo row.customer_id row.latitude row.longitude) with
    | nil =>
      exact absurd (List.perm_nil.mp (hs ▸ sort_desc_perm _).symm) hpos
    | cons p rest => exact ⟨p, rest, rfl⟩
  have htop : top_score (scoreRow st geo row.customer_id row.latitude row.longitude) = p.2 :=
    top_score_eq_head _ p rest hsort (scoreRow_pos st geo _ _ _)
  simp only [process_row]
  rw [emit_loop_eq, hacc, List.filter_append]
  have h1 : acc.filter (key_matches row.customer_id row.location_number) = [] :=
    List.length_eq_zero.mp hacc
  have h2 : ∀ (xs : List (ℤ × ℚ)),
      (xs.map (emit_rec row.customer_id row.location_number)).filter
          (key_matches row.customer_id row.location_number) =
        xs.map (emit_rec row.customer_id row.location_number) := by
    intro xs
    apply List.filter_eq_self.mpr
    intro r hr
    obtain ⟨q, _, rfl⟩ := List.mem_map.mp hr
    exact key_matches_emit_rec _ _ q
  rw [h1, List.nil_append, h2]
  unfold spec_group_recs
  rw [hsort, htop]
  simp [min_score_of]

theorem scoreRow_ex : scoreRow exSt exGeo "C1" 0 0 = [(1, 35)] := by
  norm_num [scoreRow, exSt, exVendor, exGeo, calculate_vendor_score, List.lookup,
    score_vendor, open_adjusted, pre_multiplier_score, dist_band, has_ordered, cat_bonus]

/-- Witness for C1 on the §8 example state. -/
theorem selection_matches_spec_witness :
    countKey "C1" 1 ([] : List Rec) = 0 ∧
    scoreRow exSt exGeo "C1" 0 0 ≠ [] ∧
    (process_row exSt exGeo [] exRow).filter (key_matches "C1" 1) =
      spec_group_recs "C1" 1 (scoreRow exSt exGeo "C1" 0 0) :=
  ⟨by decide, by rw [scoreRow_ex]; simp,
    selection_matches_spec exSt exGeo [] exRow (by decide)
      (by show scoreRow exSt exGeo "C1" 0 0 ≠ []; rw [scoreRow_ex]; simp)⟩

theorem cat_bonus_eq (st : Recommender) (cid category : String) :
    cat_bonus st cid category = 2 * (category_count st cid category : ℚ) := by
  unfold cat_bonus category_count
  cases h : st.customer_preferences.lookup cid with
  | none => simp
  | some counter => rw [Option.getD_some]; ring

theorem score_vendor_eq_spec (st : Recommender) (geo : ℚ → ℚ → ℚ → ℚ → ℚ)
    (cid : String) (clat clon : ℚ) (vid : ℤ) (v : Vendor)
    (hd : geo clat clon v.lat v.lon ≤ v.serving_distance) :
    score_vendor st geo cid clat clon vid v =
      spec_score v (geo clat clon v.lat v.lon) (has_ordered st cid vid)
        (category_count st cid v.category) := by
  have hband : dist_band (geo clat clon v.lat v.lon) =
      spec_dist_band (geo clat clon v.lat v.lon) := rfl
  simp only [score_vendor, spec_score, open_adjusted, pre_multiplier_score,
    if_neg (not_lt.mpr hd)]
  rw [cat_bonus_eq]
  cases v.is_open <;> cases has_ordered st cid vid <;>
    simp only [if_true, if_false, Bool.false_eq_true, ite_true, ite_false] <;>
    rw [hband] <;> congr 1 <;> ring

/-- Claim C2: for every customer location and catalog vendor within
its serving distance, `calculate_vendor_score` returns
`max(0, (band + 3*rating - 2*delivery_charge + 0.5*discount) *
(0.1 if closed else 1) + (50 if previously ordered) +
2*category_count)`, with the distance bands 20/15/10/5/1 at
1/3/5/8 km; and on the §8 example the score is 35 and the vendor is
emitted. -/
theorem calculate_vendor_score_spec :
    (∀ (st : Recommender) (geo : ℚ → ℚ → ℚ → ℚ → ℚ) (cid : String)
      (clat clon : ℚ) (vid : ℤ) (v : Vendor),
      st.vendors.lookup vid = some v →
      geo clat clon v.lat v.lon ≤ v.serving_distance →
      calculate_vendor_score st geo cid clat clon vid =
        spec_score v (geo clat clon v.lat v.lon) (has_ordered st cid vid)
          (category_count st cid v.category)) ∧
    calculate_vendor_score exSt exGeo "C1" 0 0 1 = 35 ∧
    generate_recommendations exSt exGeo [exRow] = [Rec.mk "C1" 1 1 35] := by
  refine ⟨?_, ?_, ?_⟩
  · intro st geo cid clat clon vid v hv hd
    unfold calculate_vendor_score
    rw [hv]
    exact score_vendor_eq_spec st geo cid clat clon vid v hd
  · norm_num [calculate_vendor_score, exSt, exVendor, exGeo, List.lookup, score_vendor,
      open_adjusted, pre_multiplier_score, dist_band, has_ordered, cat_bonus]
  · norm_num [generate_recommendations, process_row, exRow, scoreRow, exSt, exVendor,
      exGeo, calculate_vendor_score, List.lookup, score_vendor, open_adjusted,
      pre_multiplier_score, dist_band, has_ordered, cat_bonus, sort_desc, min_score_of,
      emit_loop, countKey, List.insertionSort]

/-- Witness for C2's universally quantified part, instantiated on the
§8 example (the vendor is at distance 0, within serving distance). -/
theorem calculate_vendor_score_spec_witness :
    calculate_vendor_score exSt exGeo "C1" 0 0 1 =
      spec_score exVendor (exGeo 0 0 exVendor.lat exVendor.lon)
        (has_ordered exSt "C1" 1) (category_count exSt "C1" exVendor.category) :=
  calculate_vendor_score_spec.1 exSt exGeo "C1" 0 0 1 exVendor (by decide)
    (by norm_num [exGeo, exVendor])

theorem calculate_out_of_range_zero (st : Recommender) (geo : ℚ → ℚ → ℚ → ℚ → ℚ)
    (cid : String) (clat clon : ℚ) (vid : ℤ) (v : Vendor)
    (hv : st.vendors.lookup vid = some v)
    (hd : v.serving_distance < geo clat clon v.lat v.lon) :
    calculate_vendor_score st geo cid clat clon vid = 0 := by
  unfold calculate_vendor_score
  rw [hv]
  simp only [score_vendor, if_pos hd]

theorem scoreRow_no_out_of_range (st : Recommender) (geo : ℚ → ℚ → ℚ → ℚ → ℚ)
    (cid : String) (clat clon : ℚ) (vid : ℤ) (v : Vendor)
    (hv : st.vendors.lookup vid = some v)
    (hd : v.serving_distance < geo clat clon v.lat v.lon) :
    ∀ p ∈ scoreRow st geo cid clat clon, p.1 ≠ vid := by
  intro p hp
  unfold scoreRow at hp
  have hpos : (0:ℚ) < p.2 := by simpa using List.of_mem_filter hp
  obtain ⟨q, _, rfl⟩ := List.mem_map.mp (List.mem_of_mem_filter hp)
  intro hq
  rw [hq, calculate_out_of_range_zero st geo cid clat clon vid v hv hd] at hpos
  exact lt_irrefl 0 hpos

/-- Claim C3: a vendor strictly farther from the customer-location
than its serving distance never appears among the recommendations
emitted for that location (the filter over the output is unchanged
from the already-accumulated rows). -/
theorem out_of_range_never_recommended (st : Recommender) (geo : ℚ → ℚ → ℚ → ℚ → ℚ)
    (acc : List Rec) (row : TestRow) (vid : ℤ) (v : Vendor)
    (hv : st.vendors.lookup vid = some v)
    (hd : v.serving_distance < geo row.latitude row.longitude v.lat v.lon) :
    (process_row st geo acc row).filter (fun r => r.vendor_id == vid) =
      acc.filter (fun r => r.vendor_id == vid) := by
  simp only [process_row]
  rw [emit_loop_eq, List.filter_append]
  have h0 : List.filter (fun r => r.vendor_id == vid)
      ((((sort_desc (scoreRow st geo row.customer_id row.latitude
        row.longitude)).filter (fun p => decide (min_score_of (sort_desc (scoreRow st geo
        row.customer_id row.latitude row.longitude)) ≤ p.2))).take
        (10 - countKey row.customer_id row.location_number acc)).map
        (emit_rec row.customer_id row.location_number)) = [] := by
    apply List.filter_eq_nil_iff.mpr
    intro r hr
    obtain ⟨q, hq, rfl⟩ := List.mem_map.mp hr
    have hq1 : q ∈ sort_desc (scoreRow st geo row.customer_id row.latitude row.longitude) :=
      List.mem_of_mem_filter (List.mem_of_mem_take hq)
    have hq2 : q ∈ scoreRow st geo row.customer_id row.latitude row.longitude :=
      (sort_desc_perm _).subset hq1
    have := scoreRow_no_out_of_range st geo row.customer_id row.latitude row.longitude
      vid v hv hd q hq2
    simp [emit_rec, this]
  rw [h0, List.append_nil]

/-- Witness for C3: the §8 vendor (serving distance 100) with the
customer 101 km away is not emitted. -/
theorem out_of_range_never_recommended_witness :
    (process_row exSt farGeo [] exRow).filter (fun r => r.vendor_id == 1) =
      ([] : List Rec).filter (fun r => r.vendor_id == 1) :=
  out_of_range_never_recommended exSt farGeo [] exRow 1 exVendor (by decide)
    (by norm_num [farGeo, exVendor])

theorem process_row_group_eq (st : Recommender) (geo : ℚ → ℚ → ℚ → ℚ → ℚ)
    (acc : List Rec) (row : TestRow)
    (hacc : countKey row.customer_id row.location_number acc = 0) :
    (process_row st geo acc row).filter (key_matches row.customer_id row.location_number) =
      (((sort_desc (scoreRow st geo row.customer_id row.latitude row.longitude)).filter
        (fun p => decide (min_score_of (sort_desc (scoreRow st geo row.customer_id
          row.latitude row.longitude)) ≤ p.2))).take 10).map
        (emit_rec row.customer_id row.location_number) := by
  simp only [process_row]
  rw [emit_loop_eq, hacc, List.filter_append]
  have h1 : acc.filter (key_matches row.customer_id row.location_number) = [] :=
    List.length_eq_zero.mp hacc
  have h2 : ∀ (xs : List (ℤ × ℚ)),
      (xs.map (emit_rec row.customer_id row.location_number)).filter
          (key_matches row.customer_id row.location_number) =
        xs.map (emit_rec row.customer_id row.location_number) := by
    intro xs
    apply List.filter_eq_self.mpr
    intro r hr
    obtain ⟨q, _, rfl⟩ := List.mem_map.mp hr
    exact key_matches_emit_rec _ _ q
  rw [h1, List.nil_append, h2]

/-- Counterexample to C4 as stated: the single vendor of `lowSt`
scores 8 (above 0), yet the emitted recommendation set is empty,
because `min_score = max(10, 0.8) = 10 > 8`. -/
theorem positive_score_group_empty :
    ((0:ℚ) < calculate_vendor_score lowSt exGeo "C1" 0 0 1 ∧
      calculate_vendor_score lowSt exGeo "C1" 0 0 1 = 8) ∧
    process_row lowSt exGeo [] exRow = [] := by
  constructor <;>
    norm_num [process_row, exRow, scoreRow, lowSt, lowVendor, exGeo,
      calculate_vendor_score, List.lookup, score_vendor, open_adjusted,
      pre_multiplier_score, dist_band, has_ordered, cat_bonus, sort_desc,
      min_score_of, emit_loop, countKey, List.insertionSort]

/-- Claim C4 as amended: for a (customer, location) group with no
previously-accumulated output, the emitted recommendation set is
non-empty whenever at least one vendor scores at least 10 (rather
than above 0: the cutoff `max(10, top*0.1)` is never below 10), and
it never holds more than 10 recommendations. -/
theorem group_nonempty_and_capped (st : Recommender) (geo : ℚ → ℚ → ℚ → ℚ → ℚ)
    (acc : List Rec) (row : TestRow)
    (hacc : countKey row.customer_id row.location_number acc = 0)
    (h : ∃ p ∈ scoreRow st geo row.customer_id row.latitude row.longitude, (10:ℚ) ≤ p.2) :
    (process_row st geo acc row).filter
        (key_matches row.customer_id row.location_number) ≠ [] ∧
    countKey row.customer_id row.location_number (process_row st geo acc row) ≤ 10 := by
  obtain ⟨q, hq, hq10⟩ := h
  constructor
  · rw [process_row_group_eq st geo acc row hacc]
    obtain ⟨p, rest, hsort⟩ : ∃ p rest,
        sort_desc (scoreRow st geo row.customer_id row.latitude row.longitude) = p :: rest := by
      cases hs : sort_desc (scoreRow st geo row.customer_id row.latitude row.longitude) with
      | nil =>
        have : scoreRow st geo row.customer_id row.latitude row.longitude = [] :=
          List.perm_nil.mp (hs ▸ sort_desc_perm _).symm
        rw [this] at hq
        exact absurd hq (List.not_mem_nil q)
      | cons p rest => exact ⟨p, rest, rfl⟩
    have hp10 : (10:ℚ) ≤ p.2 := le_trans hq10 (sort_desc_head_max _ p rest hsort q hq)
    have hm : min_score_of (sort_desc (scoreRow st geo row.customer_id row.latitude
        row.longitude)) ≤ p.2 := by
      rw [hsort]
      unfold min_score_of
      exact max_le hp10 (by linarith)
    rw [hsort]
    rw [List.filter_cons]
    simp only [hsort] at hm
    simp only [decide_eq_true_eq, hm, if_pos, decide_True]
    simp
  · exact le_trans (countKey_process_row st geo acc row _ _) (by rw [hacc]; simp)

/-- Witness for C4 (amended) on the §8 example state. -/
theorem group_nonempty_and_capped_witness :
    (process_row exSt exGeo [] exRow).filter (key_matches "C1" 1) ≠ [] ∧
    countKey "C1" 1 (process_row exSt exGeo [] exRow) ≤ 10 :=
  group_nonempty_and_capped exSt exGeo [] exRow (by decide)
    (by show ∃ p ∈ scoreRow exSt exGeo "C1" 0 0, (10:ℚ) ≤ p.2
        rw [scoreRow_ex]
        exact ⟨(1, 35), by simp, by norm_num⟩)

theorem cat_bonus_nonneg (st : Recommender) (cid category : String) :
    0 ≤ cat_bonus st cid category := by
  unfold cat_bonus
  cases st.customer_preferences.lookup cid with
  | none => exact le_refl 0
  | some counter => positivity

/-- Counterexample to C5 as stated: two identical vendors with
delivery charge 40 (pre-bonus score `20 - 80 + 2 = -58`); the
customer has ordered from vendor 1 only, yet both scores clamp to 0,
so the ordered vendor is not 50 points higher. -/
theorem prior_purchase_not_dominant :
    dearSt.vendors.lookup 1 = some dearVendor ∧
    dearSt.vendors.lookup 2 = some dearVendor ∧
    has_ordered dearSt "C" 1 = true ∧
    has_ordered dearSt "C" 2 = false ∧
    calculate_vendor_score dearSt exGeo "C" 0 0 1 = 0 ∧
    calculate_vendor_score dearSt exGeo "C" 0 0 2 = 0 ∧
    ¬ (calculate_vendor_score dearSt exGeo "C" 0 0 2 + 50 ≤
        calculate_vendor_score dearSt exGeo "C" 0 0 1) := by
  refine ⟨by decide, by decide, by decide, by decide, ?_, ?_, ?_⟩ <;>
  · simp +decide [calculate_vendor_score, dearSt, dearVendor, exGeo, List.lookup,
      score_vendor, open_adjusted, pre_multiplier_score, dist_band, has_ordered,
      cat_bonus, List.contains]
    try norm_num

/-- Claim C5 as amended: for two vendors identical in all attributes
and within serving distance, of which the customer has ordered from
exactly the first, the first's score is at least 50 points higher,
provided the shared score without the prior-purchase bonus (after
the open/closed multiplier, category bonus included) is
non-negative — otherwise the clamp at 0 can shrink the gap. -/
theorem prior_purchase_dominance_amended (st : Recommender)
    (geo : ℚ → ℚ → ℚ → ℚ → ℚ) (c : String) (clat clon : ℚ) (vid1 vid2 : ℤ)
    (v : Vendor)
    (hv1 : st.vendors.lookup vid1 = some v) (hv2 : st.vendors.lookup vid2 = some v)
    (h1 : has_ordered st c vid1 = true) (h2 : has_ordered st c vid2 = false)
    (hd : geo clat clon v.lat v.lon ≤ v.serving_distance)
    (hpre : 0 ≤ open_adjusted v (geo clat clon v.lat v.lon) + cat_bonus st c v.category) :
    calculate_vendor_score st geo c clat clon vid2 + 50 ≤
      calculate_vendor_score st geo c clat clon vid1 := by
  unfold calculate_vendor_score
  rw [hv1, hv2]
  simp only [score_vendor, if_neg (not_lt.mpr hd), h1, h2, if_true, if_false,
    Bool.false_eq_true, ite_true, ite_false]
  rw [max_eq_right hpre, max_eq_right (by linarith)]
  linarith

/-- Witness for C5 (amended): the §8 vendor under two ids, the
customer having ordered from id 1. -/
theorem prior_purchase_dominance_amended_witness :
    calculate_vendor_score twoSt exGeo "C" 0 0 2 + 50 ≤
      calculate_vendor_score twoSt exGeo "C" 0 0 1 :=
  prior_purchase_dominance_amended twoSt exGeo "C" 0 0 1 2 exVendor
    (by decide) (by decide) (by decide) (by decide)
    (by norm_num [exGeo, exVendor])
    (by norm_num [exGeo, exVendor, open_adjusted, pre_multiplier_score, dist_band,
      cat_bonus, twoSt, List.lookup])

/-- Claim C6: turning a vendor's `is_open` flag from true to false
(all else equal, the vendor within serving distance) strictly
decreases its `calculate_vendor_score`, provided the score
accumulated before the 0.1 multiplier (distance band + 3*rating -
2*delivery_charge + 0.5*discount) is positive. -/
theorem closed_vendor_suppression (st : Recommender) (geo : ℚ → ℚ → ℚ → ℚ → ℚ)
    (c : String) (clat clon : ℚ) (vid : ℤ) (v : Vendor)
    (hd : geo clat clon v.lat v.lon ≤ v.serving_distance)
    (hP : 0 < pre_multiplier_score v (geo clat clon v.lat v.lon)) :
    calculate_vendor_score
        { st with vendors := (vid, { v with is_open := false }) :: st.vendors }
        geo c clat clon vid <
      calculate_vendor_score
        { st with vendors := (vid, { v with is_open := true }) :: st.vendors }
        geo c clat clon vid := by
  unfold calculate_vendor_score
  rw [show (List.lookup vid ((vid, { v with is_open := false }) :: st.vendors)) =
      some { v with is_open := false } by simp [List.lookup]]
  rw [show (List.lookup vid ((vid, { v with is_open := true }) :: st.vendors)) =
      some { v with is_open := true } by simp [List.lookup]]
  have hordf : has_ordered { st with vendors := (vid, { v with is_open := false }) ::
      st.vendors } c vid = has_ordered st c vid := rfl
  have hordt : has_ordered { st with vendors := (vid, { v with is_open := true }) ::
      st.vendors } c vid = has_ordered st c vid := rfl
  have hcatf : cat_bonus { st with vendors := (vid, { v with is_open := false }) ::
      st.vendors } c v.category = cat_bonus st c v.category := rfl
  have hcatt : cat_bonus { st with vendors := (vid, { v with is_open := true }) ::
      st.vendors } c v.category = cat_bonus st c v.category := rfl
  have hC : 0 ≤ cat_bonus st c v.category := cat_bonus_nonneg _ _ _
  set P := pre_multiplier_score v (geo clat clon v.lat v.lon) with hPdef
  have hfalse : pre_multiplier_score { v with is_open := false }
      (geo clat clon v.lat v.lon) = P := rfl
  have htrue : pre_multiplier_score { v with is_open := true }
      (geo clat clon v.lat v.lon) = P := rfl
  simp only [score_vendor, open_adjusted]
  simp only [show ({ v with is_open := false } : Vendor).serving_distance =
      v.serving_distance from rfl,
    show ({ v with is_open := true } : Vendor).serving_distance = v.serving_distance from rfl,
    show ({ v with is_open := false } : Vendor).lat = v.lat from rfl,
    show ({ v with is_open := true } : Vendor).lat = v.lat from rfl,
    show ({ v with is_open := false } : Vendor).lon = v.lon from rfl,
    show ({ v with is_open := true } : Vendor).lon = v.lon from rfl,
    show ({ v with is_open := false } : Vendor).category = v.category from rfl,
    show ({ v with is_open := true } : Vendor).category = v.category from rfl,
    show ({ v with is_open := false } : Vendor).is_open = false from rfl,
    show ({ v with is_open := true } : Vendor).is_open = true from rfl,
    hordf, hordt, hcatf, hcatt, hfalse, htrue,
    if_neg (not_lt.mpr hd), ite_true, ite_false, Bool.false_eq_true, if_false, if_true]
  cases h : has_ordered st c vid <;>
    simp only [h, ite_true, ite_false, Bool.false_eq_true, if_false, if_true] <;>
  · rw [max_eq_right (by linarith), max_eq_right (by linarith)]
    linarith

/-- Witness for C6 on the §8 vendor (pre-multiplier score 35 > 0). -/
theorem closed_vendor_suppression_witness :
    calculate_vendor_score
        { exSt with vendors := (7, { exVendor with is_open := false }) :: exSt.vendors }
        exGeo "C1" 0 0 7 <
      calculate_vendor_score
        { exSt with vendors := (7, { exVendor with is_open := true }) :: exSt.vendors }
        exGeo "C1" 0 0 7 :=
  closed_vendor_suppression exSt exGeo "C1" 0 0 7 exVendor
    (by norm_num [exGeo, exVendor])
    (by norm_num [exGeo, exVendor, pre_multiplier_score, dist_band])

theorem record_order_fst (vendors : List (ℤ × Vendor))
    (st : List (String × List ℤ) × List (String × List (String × ℕ)))
    (o : String × ℤ) :
    (record_order vendors st o).1 = add_order st.1 o.1 o.2 := by
  unfold record_order
  cases vendors.lookup o.2 <;> rfl

theorem has_ordered_add_self (vs : List (ℤ × Vendor))
    (p : List (String × List (String × ℕ))) (m : List (String × List ℤ))
    (c : String) (v : ℤ) :
    has_ordered ⟨vs, add_order m c v, p⟩ c v = true := by
  unfold has_ordered add_order
  cases m.lookup c with
  | none => simp [List.lookup]
  | some s =>
    simp only [List.lookup, beq_self_eq_true]
    by_cases hv : v ∈ s <;> simp [hv]

theorem has_ordered_add_mono (vs vs' : List (ℤ × Vendor))
    (p p' : List (String × List (String × ℕ))) (m : List (String × List ℤ))
    (c c' : String) (v v' : ℤ)
    (h : has_ordered ⟨vs, m, p⟩ c v = true) :
    has_ordered ⟨vs', add_order m c' v', p'⟩ c v = true := by
  unfold has_ordered at h ⊢
  unfold add_order
  by_cases hcc : c = c'
  · subst hcc
    cases hm : m.lookup c with
    | none => rw [hm] at h; exact absurd h (by simp)
    | some s =>
      rw [hm] at h
      have hvs : v ∈ s := by simpa using h
      simp only [hm, List.lookup, beq_self_eq_true]
      by_cases hv : v' ∈ s <;> simp [hv, hvs]
  · cases hm : m.lookup c with
    | none => rw [hm] at h; exact absurd h (by simp)
    | some s =>
      rw [hm] at h
      cases hl : m.lookup c' <;>
        simpa [List.lookup, show (c == c') = false from beq_eq_false_iff_ne.mpr hcc, hm]
          using h

theorem load_orders_mem_aux (vendors : List (ℤ × Vendor)) (c : String) (vid : ℤ) :
    ∀ (rows : List (String × ℤ))
      (st0 : List (String × List ℤ) × List (String × List (String × ℕ))),
      ((c, vid) ∈ rows ∨ has_ordered ⟨vendors, st0.1, st0.2⟩ c vid = true) →
      has_ordered ⟨vendors, (rows.foldl (record_order vendors) st0).1,
        (rows.foldl (record_order vendors) st0).2⟩ c vid = true
  | [], st0, h => by
    rcases h with h | h
    · exact absurd h (List.not_mem_nil _)
    · simpa using h
  | o :: rest, st0, h => by
    rw [List.foldl_cons]
    apply load_orders_mem_aux vendors c vid rest (record_order vendors st0 o)
    rcases h with h | h
    · rcases List.mem_cons.mp h with rfl | hrest
      · right
        rw [record_order_fst]
        exact has_ordered_add_self _ _ _ _ _
      · left; exact hrest
    · right
      rw [record_order_fst]
      exact has_ordered_add_mono vendors vendors _ _ st0.1 c o.1 vid o.2 h

theorem record_order_snd_congr (vendors : List (ℤ × Vendor))
    (st0 st1 : List (String × List ℤ) × List (String × List (String × ℕ)))
    (o : String × ℤ) (h : st0.2 = st1.2) :
    (record_order vendors st0 o).2 = (record_order vendors st1 o).2 := by
  unfold record_order
  cases vendors.lookup o.2 <;> simp [h]

theorem foldl_record_snd_congr (vendors : List (ℤ × Vendor)) :
    ∀ (rows : List (String × ℤ))
      (st0 st1 : List (String × List ℤ) × List (String × List (String × ℕ))),
      st0.2 = st1.2 →
      (rows.foldl (record_order vendors) st0).2 =
        (rows.foldl (record_order vendors) st1).2
  | [], _, _, h => h
  | o :: rest, st0, st1, h => by
    rw [List.foldl_cons, List.foldl_cons]
    exact foldl_record_snd_congr vendors rest _ _ (record_order_snd_congr vendors st0 st1 o h)

theorem foldl_record_prefs_filter (vendors : List (ℤ × Vendor)) :
    ∀ (rows : List (String × ℤ))
      (st0 : List (String × List ℤ) × List (String × List (String × ℕ))),
      (rows.foldl (record_order vendors) st0).2 =
        ((rows.filter (fun o => (vendors.lookup o.2).isSome)).foldl
          (record_order vendors) st0).2
  | [], _ => rfl
  | o :: rest, st0 => by
    rw [List.foldl_cons, List.filter_cons]
    cases hv : vendors.lookup o.2 with
    | none =>
      simp only [hv, Option.isSome_none, Bool.false_eq_true, if_false]
      have hsnd : (record_order vendors st0 o).2 = st0.2 := by
        unfold record_order
        rw [hv]
      rw [foldl_record_prefs_filter vendors rest (record_order vendors st0 o)]
      exact foldl_record_snd_congr vendors _ _ _ hsnd
    | some v =>
      simp only [hv, Option.isSome_some, if_true, List.foldl_cons]
      exact foldl_record_prefs_filter vendors rest (record_order vendors st0 o)

/-- Claim C7: an order whose vendor id is absent from the catalog
still makes `has_ordered` true for its (customer, vendor) pair, but
contributes nothing to any category-frequency count: the preference
index equals the one built from the catalog-resolvable orders only. -/
theorem missing_vendor_order_handling (vendors : List (ℤ × Vendor))
    (rows : List (String × ℤ)) (c : String) (vid : ℤ)
    (hmem : (c, vid) ∈ rows) (habs : vendors.lookup vid = none) :
    has_ordered ⟨vendors, (load_orders vendors rows).1, (load_orders vendors rows).2⟩
        c vid = true ∧
    (load_orders vendors rows).2 =
      (load_orders vendors
        (rows.filter (fun o => (vendors.lookup o.2).isSome))).2 := by
  constructor
  · exact load_orders_mem_aux vendors c vid rows ([], []) (Or.inl hmem)
  · exact foldl_record_prefs_filter vendors rows ([], [])

/-- Witness for C7: one order referencing vendor 2, absent from the
catalog `[(1, exVendor)]`. -/
theorem missing_vendor_order_handling_witness :
    has_ordered ⟨[(1, exVendor)], (load_orders [(1, exVendor)] [("C", 2)]).1,
        (load_orders [(1, exVendor)] [("C", 2)]).2⟩ "C" 2 = true ∧
    (load_orders [(1, exVendor)] [("C", 2)]).2 =
      (load_orders [(1, exVendor)]
        ([("C", 2)].filter (fun o => ((([(1, exVendor)] : List (ℤ × Vendor)).lookup
          o.2).isSome)))).2 :=
  missing_vendor_order_handling [(1, exVendor)] [("C", 2)] "C" 2 (by decide) (by decide)

/-- Counterexample to C8 as stated: a vendor row whose latitude does
not parse makes the whole vendor load abort with an exception
(modelled as `Except.error`), rather than being dropped with the
load of the remaining rows completing. -/
theorem malformed_vendor_row_aborts :
    load_vendors [goodVendorRow, badVendorRow] = Except.error () := by rfl

theorem load_vendors_error_aux :
    ∀ (rows : List RawVendorRow) (acc : List (ℤ × Vendor)) (row : RawVendorRow),
      row ∈ rows → parse_vendor_row row = .error () →
      (rows.foldlM (fun acc row => do
        let p ← parse_vendor_row row
        pure (p :: acc)) acc : Except Unit (List (ℤ × Vendor))) = .error ()
  | [], _, _, hmem, _ => absurd hmem (List.not_mem_nil _)
  | r :: rest, acc, row, hmem, herr => by
    rw [List.foldlM_cons]
    cases hp : parse_vendor_row r with
    | error e =>
      cases e
      rfl
    | ok p =>
      rcases List.mem_cons.mp hmem with rfl | hrest
      · rw [hp] at herr; exact absurd herr (by simp)
      · show (rest.foldlM (fun acc row => do
            let p ← parse_vendor_row row
            pure (p :: acc)) (p :: acc) : Except Unit (List (ℤ × Vendor))) = .error ()
        exact load_vendors_error_aux rest (p :: acc) row hrest herr

/-- Claim C8 as amended: malformed customer-location rows are
dropped silently and their load completes (the test-location loop of
`simple_recommender.py` catches parse failures), but a vendor row
with a missing or unparsable required field aborts the entire vendor
load of `load_data` — vendor-row leniency as claimed does not hold. -/
theorem loading_leniency_amended :
    (∀ (rows : List RawVendorRow) (row : RawVendorRow), row ∈ rows →
      parse_vendor_row row = .error () → load_vendors rows = .error ()) ∧
    (∀ (tcs : List String) (rows : List RawLocationRow),
      load_test_data tcs rows =
        load_test_data tcs (rows.filter (fun r => (parse_location_row tcs r).isSome))) := by
  constructor
  · intro rows row hmem herr
    exact load_vendors_error_aux rows [] row hmem herr
  · intro tcs rows
    unfold load_test_data
    induction rows with
    | nil => rfl
    | cons r rest ih =>
      rw [List.filter_cons]
      cases hr : parse_location_row tcs r with
      | none => simp [List.filterMap_cons, hr, ih]
      | some t => simp [List.filterMap_cons, hr, ih]

/-- Witness for C8 (amended), on a concrete malformed vendor row and
a concrete malformed location row. -/
theorem loading_leniency_amended_witness :
    load_vendors [goodVendorRow, badVendorRow] = .error () ∧
    load_test_data ["C1"] [⟨"C1", .num 1, .bad, .num 0⟩] =
      load_test_data ["C1"]
        ([⟨"C1", .num 1, .bad, .num 0⟩].filter
          (fun r => (parse_location_row ["C1"] r).isSome)) :=
  ⟨loading_leniency_amended.1 [goodVendorRow, badVendorRow] badVendorRow (by decide)
      (by rfl),
    loading_leniency_amended.2 ["C1"] [⟨"C1", .num 1, .bad, .num 0⟩]⟩

/-- Claim C9: a vendor id absent from the catalog scores 0 for every
customer and location. -/
theorem unknown_vendor_scores_zero (st : Recommender) (geo : ℚ → ℚ → ℚ → ℚ → ℚ)
    (cid : String) (clat clon : ℚ) (vid : ℤ)
    (h : st.vendors.lookup vid = none) :
    calculate_vendor_score st geo cid clat clon vid = 0 := by
  unfold calculate_vendor_score
  rw [h]

/-- Witness for C9: vendor 2 is absent from the §8 catalog. -/
theorem unknown_vendor_scores_zero_witness :
    calculate_vendor_score exSt exGeo "C1" 0 0 2 = 0 :=
  unknown_vendor_scores_zero exSt exGeo "C1" 0 0 2 (by decide)

/-- Claim C10: the per-group cap is counted against the accumulated
output list, so even when the same (customer, location) key occurs in
several test rows — each occurrence may re-emit the same vendor — the
combined number of recommendations for the key never exceeds 10. -/
theorem cap_counts_accumulated_output :
    (∀ (st : Recommender) (geo : ℚ → ℚ → ℚ → ℚ → ℚ) (rows : List TestRow)
      (c : String) (l : ℤ),
      countKey c l (generate_recommendations st geo rows) ≤ 10) ∧
    generate_recommendations exSt exGeo [exRow, exRow] =
      [Rec.mk "C1" 1 1 35, Rec.mk "C1" 1 1 35] := by
  constructor
  · intro st geo rows c l
    exact countKey_foldl st geo c l rows [] (by simp [countKey])
  · norm_num [generate_recommendations, process_row, exRow, scoreRow, exSt, exVendor,
      exGeo, calculate_vendor_score, List.lookup, score_vendor, open_adjusted,
      pre_multiplier_score, dist_band, has_ordered, cat_bonus, sort_desc, min_score_of,
      emit_loop, countKey, key_matches, List.insertionSort]

end RestaurantRec
